import Mathlib

/-!
Verification of the Walme task bot (`src/index.js`): a shallow embedding of
its proxy-string parser, transport builder, error classifier, retry
orchestrator, proxy health tracker and per-account task runner, together with
theorems settling the specification's claims about them.

JavaScript strings are embedded as `List Char` and every fallible JS
operation returns an `Option`/`Except`; outbound HTTP calls are oracles
passed in as functions, so that each code path is a total, executable Lean
function translated clause by clause from the source.
-/

/-! ## JS string primitives

`JsStr` models a JavaScript string.  `splitOnChar` models
`String.prototype.split` with a one-character separator (it always yields at
least one piece, and keeps empty pieces, exactly as JS does);
`containsSub` models `String.prototype.includes`; `splitFirstSub` splits at
the first occurrence of a substring. -/

abbrev JsStr := List Char

def js (s : String) : JsStr := s.toList

def splitOnChar (sep : Char) : JsStr → List JsStr
  | [] => [[]]
  | c :: cs =>
    if c = sep then [] :: splitOnChar sep cs
    else
      match splitOnChar sep cs with
      | [] => [[c]]
      | r :: rs => (c :: r) :: rs

def isPrefixL : JsStr → JsStr → Bool
  | [], _ => true
  | _ :: _, [] => false
  | c :: cs, d :: ds => c = d && isPrefixL cs ds

def containsSub : JsStr → JsStr → Bool
  | [], pat => isPrefixL pat []
  | c :: cs, pat => isPrefixL pat (c :: cs) || containsSub cs pat

/-! Basic lemmas about the string primitives. -/

theorem splitOnChar_ne_nil (sep : Char) (s : JsStr) : splitOnChar sep s ≠ [] := by
  cases s with
  | nil => simp [splitOnChar]
  | cons c cs =>
    simp only [splitOnChar]
    split
    · simp
    · split
      · simp
      · simp

theorem splitOnChar_not_mem (sep : Char) (s : JsStr) (h : sep ∉ s) :
    splitOnChar sep s = [s] := by
  induction s with
  | nil => rfl
  | cons c cs ih =>
    simp only [List.mem_cons, not_or] at h
    simp only [splitOnChar, if_neg (Ne.symm h.1)]
    rw [ih h.2]

theorem isPrefixL_mem {pat s : JsStr} (h : isPrefixL pat s = true) :
    ∀ c ∈ pat, c ∈ s := by
  induction pat generalizing s with
  | nil => simp
  | cons c cs ih =>
    cases s with
    | nil => simp [isPrefixL] at h
    | cons d ds =>
      simp only [isPrefixL, Bool.and_eq_true, decide_eq_true_eq] at h
      intro x hx
      rcases List.mem_cons.mp hx with hx | hx
      · simp [hx, h.1]
      · exact List.mem_cons_of_mem _ (ih h.2 x hx)

theorem containsSub_eq_false {s pat : JsStr} {c : Char} (hc : c ∈ pat) (hs : c ∉ s) :
    containsSub s pat = false := by
  induction s with
  | nil =>
    cases pat with
    | nil => exact absurd hc (List.not_mem_nil c)
    | cons p ps => simp [containsSub, isPrefixL]
  | cons d ds ih =>
    simp only [List.mem_cons, not_or] at hs
    have h1 : isPrefixL pat (d :: ds) = false := by
      by_contra h
      have := isPrefixL_mem (Bool.of_not_eq_false h) c hc
      rcases List.mem_cons.mp this with h' | h'
      · exact hs.1 h'
      · exact hs.2 h'
    simp [containsSub, h1, ih hs.2]

def splitFirstSub : JsStr → JsStr → Option (JsStr × JsStr)
  | [], pat => if isPrefixL pat [] then some ([], ([] : JsStr).drop pat.length) else none
  | c :: cs, pat =>
    if isPrefixL pat (c :: cs) then some ([], (c :: cs).drop pat.length)
    else (splitFirstSub cs pat).map fun r => (c :: r.1, r.2)

structure JsError where
  code : Option JsStr
  message : Option JsStr
  response : Option Nat
deriving DecidableEq

/-- `PROXY_ERROR_CODES` (src/index.js lines 26-30). -/
def PROXY_ERROR_CODES : List JsStr :=
  [js "ECONNRESET", js "ETIMEDOUT", js "ECONNREFUSED", js "EHOSTUNREACH",
   js "ENOTFOUND", js "ESOCKETTIMEDOUT", js "EPROTO", js "ECONNABORTED",
   js "EADDRNOTAVAIL", js "ENETUNREACH"]

/-- The eleven message substrings tested by the chain of
`error.message.includes(...)` calls in `isProxyError` (lines 146-156),
in source order. -/
def NETWORK_MESSAGE_SUBSTRINGS : List JsStr :=
  [js "socket hang up", js "Client network socket disconnected",
   js "read ECONNRESET", js "connect ETIMEDOUT", js "connect ECONNREFUSED",
   js "getaddrinfo ENOTFOUND", js "ECONN", js "ETIMEOUT", js "EPROTO",
   js "ECONNABORTED", js "ERR_PROXY"]

/-- `isProxyError` (lines 136-168).  The argument is `Option JsError`
because the source first tests `if (!error) return false`; the truthiness
guards `error.code && ...` and `error.message && ...` are kept. -/
def isProxyError : Option JsError → Bool
  | none => false
  | some e =>
    (match e.code with
     | some c => !c.isEmpty && PROXY_ERROR_CODES.contains c
     | none => false) ||
    (match e.message with
     | some m => !m.isEmpty && NETWORK_MESSAGE_SUBSTRINGS.any fun pat => containsSub m pat
     | none => false) ||
    (match e.response with
     | some st => st == 407 || st == 502 || st == 503 || st == 504
     | none => false)

/-! Spec-side restatement of the classification rules of spec section 4.3,
used to check `isProxyError` against the words of the spec. -/

def specKnownCode (e : JsError) : Prop :=
  ∃ c, e.code = some c ∧ c ∈ PROXY_ERROR_CODES

def specNetworkMessage (e : JsError) : Prop :=
  ∃ m, e.message = some m ∧ ∃ pat ∈ NETWORK_MESSAGE_SUBSTRINGS, containsSub m pat = true

def specProxyStatus (e : JsError) : Prop :=
  e.response = some 407 ∨ e.response = some 502 ∨ e.response = some 503 ∨ e.response = some 504

theorem list_contains_iff (l : List JsStr) (a : JsStr) :
    l.contains a = true ↔ a ∈ l := by
  induction l with
  | nil => simp
  | cons x xs ih => simp [List.contains_cons, ih]

theorem code_guard_iff (c : JsStr) :
    (!c.isEmpty && PROXY_ERROR_CODES.contains c) = true ↔ c ∈ PROXY_ERROR_CODES := by
  constructor
  · intro h
    exact (list_contains_iff _ _).mp ((Bool.and_eq_true _ _).mp h).2
  · intro h
    have hne : c.isEmpty = false := by
      cases c with
      | nil => exact absurd h (by decide)
      | cons a as => rfl
    simp [hne, list_contains_iff]
    exact h

theorem message_guard_iff (m : JsStr) :
    (!m.isEmpty && NETWORK_MESSAGE_SUBSTRINGS.any fun pat => containsSub m pat) = true
      ↔ ∃ pat ∈ NETWORK_MESSAGE_SUBSTRINGS, containsSub m pat = true := by
  constructor
  · intro h
    exact List.any_eq_true.mp ((Bool.and_eq_true _ _).mp h).2
  · rintro ⟨pat, hmem, hsub⟩
    have hne : m.isEmpty = false := by
      cases m with
      | nil =>
        exfalso
        cases pat with
        | nil => exact absurd hmem (by decide)
        | cons a as => simp [containsSub, isPrefixL] at hsub
      | cons a as => rfl
    simp only [hne, Bool.not_false, Bool.true_and]
    exact List.any_eq_true.mpr ⟨pat, hmem, hsub⟩

theorem mem_codes_ne_nil (c : JsStr) (h : c ∈ PROXY_ERROR_CODES) : ¬c = [] := by
  intro hc
  subst hc
  revert h
  decide

theorem mem_substr_contains_ne_nil (m : JsStr)
    (h : ∃ pat ∈ NETWORK_MESSAGE_SUBSTRINGS, containsSub m pat = true) : ¬m = [] := by
  rintro rfl
  rcases h with ⟨pat, hmem, hsub⟩
  cases pat with
  | nil => exact absurd hmem (by decide)
  | cons a as => simp [containsSub, isPrefixL] at hsub

theorem code_conj_iff (c : JsStr) :
    (¬c = [] ∧ c ∈ PROXY_ERROR_CODES) ↔ c ∈ PROXY_ERROR_CODES :=
  ⟨fun h => h.2, fun h => ⟨mem_codes_ne_nil c h, h⟩⟩

theorem msg_conj_iff (m : JsStr) :
    (¬m = [] ∧ ∃ pat ∈ NETWORK_MESSAGE_SUBSTRINGS, containsSub m pat = true)
      ↔ ∃ pat ∈ NETWORK_MESSAGE_SUBSTRINGS, containsSub m pat = true :=
  ⟨fun h => h.2, fun h => ⟨mem_substr_contains_ne_nil m h, h⟩⟩

/-- C5: the error classifier returns "proxy error" exactly when the error
carries one of the known low-level connection error codes, or its message
matches one of the known network-failure substrings, or its HTTP response
status is 407, 502, 503 or 504, and "application error" otherwise; in
particular `code = "ECONNRESET"` classifies as proxy error and an HTTP 404
with no network code classifies as application error. -/
theorem isProxyError_matches_spec :
    (∀ e : JsError,
      isProxyError (some e) = true ↔ (specKnownCode e ∨ specNetworkMessage e ∨ specProxyStatus e))
    ∧ isProxyError (some ⟨some (js "ECONNRESET"), none, none⟩) = true
    ∧ isProxyError (some ⟨none, some (js "Request failed with status code 404"), some 404⟩) = false := by
  refine ⟨?_, by decide, by decide⟩
  rintro ⟨oc, om, os⟩
  cases oc <;> cases om <;> cases os <;>
    simp [isProxyError, specKnownCode, specNetworkMessage, specProxyStatus,
      code_guard_iff, message_guard_iff, Bool.or_eq_true, code_conj_iff,
      msg_conj_iff, or_assoc]

/-! ## Proxy descriptor parser and transport builder
(`createProxyAgent`, src/index.js lines 69-133)

The source calls the WHATWG `URL` constructor for strings containing
"://"; everything else is parsed by hand with `split`. -/

structure URLRec where
  protocol : JsStr
  hostname : JsStr
  port : JsStr
  username : JsStr
  password : JsStr
deriving DecidableEq

def schemeValid : JsStr → Bool
  | [] => false
  | c :: cs => c.isAlpha && cs.all fun d => d.isAlpha || d.isDigit || d == '+' || d == '-' || d == '.'

/-- The numeric value of an all-digit port string, as the WHATWG URL port
parser computes it. -/
def portValue (p : JsStr) : Nat :=
  p.foldl (fun acc c => acc * 10 + (c.toNat - 48)) 0

/-- The default port number of a WHATWG special scheme; `url.port` is the
empty string when the parsed port value equals it. -/
def defaultPortNum (scheme : JsStr) : Option Nat :=
  if scheme = js "http" then some 80
  else if scheme = js "https" then some 443
  else if scheme = js "ws" then some 80
  else if scheme = js "wss" then some 443
  else if scheme = js "ftp" then some 21
  else none

/-- Modelled contract of the WHATWG `URL` constructor (`new URL(proxyString)`),
which is a JS library call, on the inputs this program feeds it: strings of
the shape `scheme://[userinfo@]host[:port][/?#...]` with at most one `@`.
`none` models the constructor throwing.  As in the real parser: the
authority ends at the first `/`, `?` or `#` (anything after is
path/query/fragment and is irrelevant to the fields the source reads);
`protocol` is the scheme (the source strips the trailing `:`); the hostname
is lower-cased; the port must be all digits (else the constructor throws),
is parsed numerically (a value above 65535 throws), is serialized back in
canonical decimal (so leading zeros are dropped), and `url.port` is the
empty string when the value equals the scheme's default (so
`new URL("http://h:80").port = ""` and `new URL("http://h:080").port = ""`). -/
def parseURLModel (s : JsStr) : Option URLRec :=
  match splitFirstSub s (js "://") with
  | none => none
  | some (scheme, rest) =>
    if schemeValid scheme then
      let authority := rest.takeWhile fun c => !(c == '/' || c == '?' || c == '#')
      let parts :=
        match splitFirstSub authority (js "@") with
        | some cred_server => (some cred_server.1, cred_server.2)
        | none => (none, authority)
      let userinfo := parts.1
      let hostport := parts.2
      let userpass :=
        match userinfo with
        | some cred =>
          match splitFirstSub cred (js ":") with
          | some uw => (uw.1, uw.2)
          | none => (cred, [])
        | none => ([], [])
      let hostele :=
        match splitFirstSub hostport (js ":") with
        | some hp => (hp.1, hp.2)
        | none => (hostport, [])
      let host := hostele.1
      let portStr := hostele.2
      if host.isEmpty then none
      else if !portStr.isEmpty && !(portStr.all Char.isDigit) then none
      else if portStr.isEmpty then
        some ⟨scheme, host.map Char.toLower, [], userpass.1, userpass.2⟩
      else if portValue portStr > 65535 then none
      else
        let port := if defaultPortNum scheme = some (portValue portStr) then []
                    else js (Nat.repr (portValue portStr))
        some ⟨scheme, host.map Char.toLower, port, userpass.1, userpass.2⟩
    else none

/-- The connection descriptor `(protocol, host, port, auth)` that
`createProxyAgent` has derived right after its `!host || !port` validity
check (lines 71-105): `proxyType` is `protocol?.toLowerCase() || 'http'`. -/
structure ProxyDescriptor where
  proxyType : JsStr
  host : JsStr
  port : JsStr
  auth : Option JsStr
deriving DecidableEq

/-- The `if (!host || !port) throw` check and the
`protocol?.toLowerCase() || 'http'` defaulting (lines 101-105); an undefined
or empty host or port makes the whole builder return null via its catch. -/
def finishDescriptor (protocol host port : Option JsStr) (auth : Option JsStr) :
    Option ProxyDescriptor :=
  match host, port with
  | some h, some p =>
    if h.isEmpty || p.isEmpty then none
    else
      let proxyType :=
        match protocol with
        | some pr => if pr.isEmpty then js "http" else pr.map Char.toLower
        | none => js "http"
      some ⟨proxyType, h, p, auth⟩
  | _, _ => none

/-- The parsing phase of `createProxyAgent` (lines 69-105): from a raw proxy
string to the validated descriptor, or `none` where the source throws and
its catch returns null. -/
def parseProxyDescriptor (proxyString : JsStr) : Option ProxyDescriptor :=
  if containsSub proxyString (js "://") then
    match parseURLModel proxyString with
    | none => none
    | some u =>
      let auth :=
        if !u.username.isEmpty && !u.password.isEmpty
        then some (u.username ++ js ":" ++ u.password) else none
      finishDescriptor (some u.protocol) (some u.hostname) (some u.port) auth
  else
    let parts := splitOnChar ':' proxyString
    if parts.length ≥ 2 then
      if parts.length == 2 then
        finishDescriptor (some (js "http")) (parts.get? 0) (parts.get? 1) none
      else if parts.length == 4 then
        finishDescriptor (some (js "http")) (parts.get? 0) (parts.get? 1)
          (some (List.intercalate (js ":") (parts.drop 2)))
      else if containsSub proxyString (js "@") then
        match (splitOnChar '@' proxyString).get? 0, (splitOnChar '@' proxyString).get? 1 with
        | some credentials, some server =>
          finishDescriptor (some (js "http"))
            ((splitOnChar ':' server).get? 0) ((splitOnChar ':' server).get? 1)
            (some credentials)
        | _, _ => none
      else finishDescriptor none none none none
    else finishDescriptor none none none none

/-- A transport handle: one SOCKS-tunneled agent, or the http/https pair
sharing one upstream proxy URL (lines 107-128). -/
inductive ProxyAgent where
  | socks (url : JsStr)
  | httpPair (url : JsStr)
deriving DecidableEq

/-- `createProxyAgent` (lines 69-133): descriptor parsing followed by agent
construction; `none` models the catch returning null. -/
def createProxyAgent (proxyString : JsStr) : Option ProxyAgent :=
  match parseProxyDescriptor proxyString with
  | none => none
  | some d =>
    if isPrefixL (js "socks") d.proxyType then
      some (.socks (js "socks" ++ (if d.proxyType.getLast? == some '5' then js "5" else js "4")
        ++ js "://" ++ (match d.auth with | some a => a ++ js "@" | none => [])
        ++ d.host ++ js ":" ++ d.port))
    else
      some (.httpPair (js "http://" ++ (match d.auth with | some a => a ++ js "@" | none => [])
        ++ d.host ++ js ":" ++ d.port))

/-! Facts used to reason about the accepted proxy-string shapes. -/

theorem isEmpty_false_of_ne {α : Type} {l : List α} (h : l ≠ []) : l.isEmpty = false := by
  cases l with
  | nil => exact absurd rfl h
  | cons a as => rfl

theorem js_at_head : (js "@").head (by decide) = '@' := rfl

def MAX_RETRIES : Nat := 3

/-- `RETRY_DELAY = 3000` ms. -/
def RETRY_DELAY : ℚ := 3000

/-- `getBackoffDelay` (lines 210-213): `RETRY_DELAY * Math.pow(1.5, attempt - 1)`
(1.5 is exactly 3/2). -/
def getBackoffDelay (attempt : Nat) : ℚ :=
  RETRY_DELAY * (3 / 2) ^ (attempt - 1)

structure RetryTrace (α : Type) where
  result : Option (Except JsError α)
  sleeps : List ℚ
  agentsUsed : List (Option ProxyAgent)

/-- Lines 196-204: the agent built before attempt 1 — only when a proxy
string is supplied and truthy; a failed build logs a warning and leaves the
agent null. -/
def initialProxyAgent (proxyString : Option JsStr) : Option ProxyAgent :=
  match proxyString with
  | some s => if s.isEmpty then none else createProxyAgent s
  | none => none

/-- The attempt loop of `retryApiRequest` (lines 215-256): try the call;
on success return its result at once; on failure of attempt k < maxRetries
sleep `getBackoffDelay k` and, for a proxy-classified error with a truthy
proxy string, rebuild the transport handle; on failure of the last attempt
rethrow the error. -/
def retryLoop {α : Type} (f : Option ProxyAgent → Nat → Except JsError α)
    (proxyString : Option JsStr) (maxRetries : Nat) (attempt : Nat)
    (proxyAgent : Option ProxyAgent) (sleeps : List ℚ)
    (used : List (Option ProxyAgent)) : RetryTrace α :=
  if _h : attempt > maxRetries then ⟨none, sleeps, used⟩
  else
    match f proxyAgent attempt with
    | .ok a => ⟨some (.ok a), sleeps, used ++ [proxyAgent]⟩
    | .error e =>
      if attempt < maxRetries then
        let nextAgent :=
          match proxyString with
          | some s =>
            if isProxyError (some e) && !s.isEmpty then createProxyAgent s else proxyAgent
          | none => proxyAgent
        retryLoop f proxyString maxRetries (attempt + 1) nextAgent
          (sleeps ++ [getBackoffDelay attempt]) (used ++ [proxyAgent])
      else ⟨some (.error e), sleeps, used ++ [proxyAgent]⟩
termination_by maxRetries + 1 - attempt
decreasing_by omega

/-- `retryApiRequest` (lines 195-257) as a trace. -/
def retryApiRequest {α : Type} (f : Option ProxyAgent → Nat → Except JsError α)
    (proxyString : Option JsStr) (maxRetries : Nat) : RetryTrace α :=
  retryLoop f proxyString maxRetries 1 (initialProxyAgent proxyString) [] []

/-- C3: a call that fails exactly twice and then succeeds, run with
`MAX_RETRIES = 3`, yields the success result, performs exactly the two
backoff sleeps `RETRY_DELAY * 1.5^0 = 3000` ms and `RETRY_DELAY * 1.5^1 =
4500` ms, and makes no attempt after the success (exactly 3 calls). -/
theorem retry_two_failures_then_success {α : Type}
    (f : Option ProxyAgent → Nat → Except JsError α) (ps : Option JsStr)
    (a : α) (e1 e2 : JsError)
    (h1 : ∀ ag, f ag 1 = .error e1) (h2 : ∀ ag, f ag 2 = .error e2)
    (h3 : ∀ ag, f ag 3 = .ok a) :
    (retryApiRequest f ps MAX_RETRIES).result = some (.ok a)
    ∧ (retryApiRequest f ps MAX_RETRIES).sleeps = [getBackoffDelay 1, getBackoffDelay 2]
    ∧ (retryApiRequest f ps MAX_RETRIES).sleeps = [3000, 4500]
    ∧ (retryApiRequest f ps MAX_RETRIES).agentsUsed.length = 3 := by
  simp [retryApiRequest, retryLoop, h1, h2, h3, MAX_RETRIES, getBackoffDelay, RETRY_DELAY]
  norm_num

theorem retry_two_failures_then_success_witness :
    (retryApiRequest (fun _ k =>
        if k = 1 then .error ⟨some (js "ETIMEDOUT"), none, none⟩
        else if k = 2 then .error ⟨some (js "ECONNRESET"), none, none⟩
        else .ok 7) none MAX_RETRIES).result = some (.ok (7 : Nat))
    ∧ (retryApiRequest (fun _ k =>
        if k = 1 then .error ⟨some (js "ETIMEDOUT"), none, none⟩
        else if k = 2 then .error ⟨some (js "ECONNRESET"), none, none⟩
        else .ok 7) none MAX_RETRIES).sleeps = [getBackoffDelay 1, getBackoffDelay 2]
    ∧ (retryApiRequest (fun _ k =>
        if k = 1 then .error ⟨some (js "ETIMEDOUT"), none, none⟩
        else if k = 2 then .error ⟨some (js "ECONNRESET"), none, none⟩
        else .ok 7) none MAX_RETRIES).sleeps = [3000, 4500]
    ∧ (retryApiRequest (fun _ k =>
        if k = 1 then .error ⟨some (js "ETIMEDOUT"), none, none⟩
        else if k = 2 then .error ⟨some (js "ECONNRESET"), none, none⟩
        else .ok 7) none MAX_RETRIES).agentsUsed.length = 3 :=
  retry_two_failures_then_success _ none 7
    ⟨some (js "ETIMEDOUT"), none, none⟩ ⟨some (js "ECONNRESET"), none, none⟩
    (fun _ => rfl) (fun _ => rfl) (fun _ => rfl)

/-- C4: a call that always fails, run with `MAX_RETRIES = 3`, is attempted
exactly 3 times and the error thrown by the third (final) attempt is
propagated to the caller unchanged. -/
theorem retry_exhaustion_propagates (α : Type) (ps : Option JsStr) (g : Nat → JsError) :
    (retryApiRequest (fun _ k => (Except.error (g k) : Except JsError α)) ps MAX_RETRIES).result
      = some (.error (g 3))
    ∧ (retryApiRequest (fun _ k => (Except.error (g k) : Except JsError α)) ps MAX_RETRIES).sleeps
        = [3000, 4500]
    ∧ (retryApiRequest (fun _ k => (Except.error (g k) : Except JsError α)) ps
        MAX_RETRIES).agentsUsed.length = 3 := by
  simp [retryApiRequest, retryLoop, MAX_RETRIES, getBackoffDelay, RETRY_DELAY]
  norm_num

theorem retryLoop_agent_none {α : Type} (f : Option ProxyAgent → Nat → Except JsError α)
    (s : JsStr) (hnone : createProxyAgent s = none) :
    ∀ (k maxRetries attempt : Nat) (sleeps : List ℚ) (used : List (Option ProxyAgent)),
      maxRetries + 1 - attempt ≤ k →
      retryLoop f (some s) maxRetries attempt none sleeps used
        = retryLoop f none maxRetries attempt none sleeps used := by
  intro k
  induction k with
  | zero =>
    intro maxRetries attempt sleeps used hle
    have hgt : attempt > maxRetries := by omega
    rw [retryLoop.eq_def f (some s) maxRetries attempt none sleeps used,
      retryLoop.eq_def f none maxRetries attempt none sleeps used]
    simp [hgt]
  | succ n ih =>
    intro maxRetries attempt sleeps used hle
    rw [retryLoop.eq_def f (some s) maxRetries attempt none sleeps used,
      retryLoop.eq_def f none maxRetries attempt none sleeps used]
    by_cases hgt : attempt > maxRetries
    · simp [hgt]
    · simp only [dif_neg hgt]
      cases hf : f none attempt with
      | ok a => simp
      | error e =>
        by_cases hlt : attempt < maxRetries
        · simp only [if_pos hlt]
          have hagent : (if (isProxyError (some e) && !List.isEmpty s) = true
              then createProxyAgent s else (none : Option ProxyAgent)) = none := by
            cases hcond : isProxyError (some e) && !List.isEmpty s
            · simp
            · simp [hnone]
          rw [hagent]
          exact ih maxRetries (attempt + 1) _ _ (by omega)
        · simp only [if_neg hlt]

/-- C7: a malformed proxy string — the empty string, a string with no colon
at all (missing port), or a string without "://" and without "@" whose colon
split has 3 or 5 parts — makes the parser signal a failure so the builder
surfaces null, and the retry orchestrator then proceeds with a null
transport handle: its trace is exactly the trace of a run with no proxy,
never an abort. -/
theorem malformed_proxy_surfaces_null :
    createProxyAgent (js "") = none
    ∧ (∀ s : JsStr, ':' ∉ s → createProxyAgent s = none)
    ∧ (∀ s : JsStr, containsSub s (js "://") = false → containsSub s (js "@") = false →
        ((splitOnChar ':' s).length = 3 ∨ (splitOnChar ':' s).length = 5) →
        createProxyAgent s = none)
    ∧ (∀ (s : JsStr) (α : Type) (f : Option ProxyAgent → Nat → Except JsError α) (n : Nat),
        createProxyAgent s = none →
        retryApiRequest f (some s) n = retryApiRequest f none n) := by
  refine ⟨by decide, ?_, ?_, ?_⟩
  · intro s hs
    have hsep : containsSub s (js "://") = false :=
      containsSub_eq_false (show ':' ∈ js "://" by decide) hs
    have hsplit : splitOnChar ':' s = [s] := splitOnChar_not_mem ':' s hs
    simp [createProxyAgent, parseProxyDescriptor, hsep, hsplit, finishDescriptor]
  · intro s h1 h2 h3
    rcases h3 with h3 | h3 <;>
      simp [createProxyAgent, parseProxyDescriptor, h1, h2, h3, finishDescriptor]
  · intro s α f n hnone
    have hinit : initialProxyAgent (some s) = none := by
      simp [initialProxyAgent, hnone]
    have hinit2 : initialProxyAgent (none : Option JsStr) = none := rfl
    simp only [retryApiRequest, hinit, hinit2]
    exact retryLoop_agent_none f s hnone n n 1 [] [] (by omega)

theorem malformed_proxy_surfaces_null_witness :
    createProxyAgent (js "10.0.0.1:80:extra") = none
    ∧ retryApiRequest (fun _ _ => (Except.ok 0 : Except JsError Nat))
        (some (js "10.0.0.1:80:extra")) 3
      = retryApiRequest (fun _ _ => (Except.ok 0 : Except JsError Nat)) none 3 := by
  have hmal : createProxyAgent (js "10.0.0.1:80:extra") = none :=
    malformed_proxy_surfaces_null.2.2.1 (js "10.0.0.1:80:extra")
      (by decide) (by decide) (Or.inl (by decide))
  exact ⟨hmal, malformed_proxy_surfaces_null.2.2.2 _ _ _ 3 hmal⟩

/-! ## Proxy health tracker and scheduler step (`runBot`, src/index.js
lines 519-562)

The failure table `proxyFailures` is embedded as a total map
`JsStr → Nat` (the source initialises every loaded proxy to 0 and reads
`proxyFailures[p] || 0`). -/

theorem getD_mem_of_lt {l : List JsStr} {n : Nat} (h : n < l.length) (d : JsStr) :
    l.getD n d ∈ l := by
  induction l generalizing n with
  | nil => simp at h
  | cons x xs ih =>
    cases n with
    | zero => simp [List.getD]
    | succ m =>
      have : m < xs.length := by simpa using h
      simpa [List.getD] using List.mem_cons_of_mem x (ih this)

/-- The proxy-selection block of the scheduler loop (lines 534-551): filter
to proxies with failure count < 3; when the healthy subset is non-empty pick
`healthyProxies[i % healthyProxies.length]` and leave the table unchanged;
otherwise reset every listed proxy's counter to 0 (the `forEach` assignment,
written here as a pointwise update since the iteration order is immaterial)
and pick `proxies[i % proxies.length]`.  When the proxy list is empty the
block is skipped and no proxy is selected. -/
def selectProxy (proxies : List JsStr) (proxyFailures : JsStr → Nat) (i : Nat) :
    Option JsStr × (JsStr → Nat) :=
  if proxies.isEmpty then (none, proxyFailures)
  else
    let healthyProxies := proxies.filter fun p => decide (proxyFailures p < 3)
    if healthyProxies.length > 0 then
      (some (healthyProxies.getD (i % healthyProxies.length) []), proxyFailures)
    else
      (some (proxies.getD (i % proxies.length) []),
        fun q => if q ∈ proxies then 0 else proxyFailures q)

/-- One account iteration of the scheduler loop as it touches the failure
table (lines 530-562): select a proxy, run `processAccount`, and in the
`catch (accError)` block — entered when the call throws `some e` — increment
the selected proxy's counter when the error is proxy-classified and the
proxy string is truthy (`if (proxyString && isProxyError(accError))`). -/
def schedulerStep (proxies : List JsStr) (proxyFailures : JsStr → Nat) (i : Nat)
    (accOutcome : Option JsError) : Option JsStr × (JsStr → Nat) :=
  let sel := selectProxy proxies proxyFailures i
  match accOutcome, sel.1 with
  | some e, some p =>
    if !p.isEmpty && isProxyError (some e) then
      (sel.1, fun q => if q = p then sel.2 q + 1 else sel.2 q)
    else sel
  | _, _ => sel

/-- C2: for every non-empty proxy list, selection never returns a proxy with
failure count ≥ 3 while a healthy proxy exists — it picks
`healthy[i % |healthy|]` from the healthy subset and leaves the counters
untouched; and when every proxy has count ≥ 3 it resets every listed
proxy's counter to 0 (touching no other key) and returns
`proxies[i % |proxies|]`. -/
theorem selectProxy_spec (proxies : List JsStr) (f : JsStr → Nat) (i : Nat)
    (hne : proxies ≠ []) :
    ((proxies.filter fun p => decide (f p < 3)) ≠ [] →
      (selectProxy proxies f i).1
          = some ((proxies.filter fun p => decide (f p < 3)).getD
              (i % (proxies.filter fun p => decide (f p < 3)).length) [])
      ∧ (selectProxy proxies f i).2 = f
      ∧ ∀ p, (selectProxy proxies f i).1 = some p → f p < 3)
    ∧ ((proxies.filter fun p => decide (f p < 3)) = [] →
      (selectProxy proxies f i).1 = some (proxies.getD (i % proxies.length) [])
      ∧ (∀ q ∈ proxies, (selectProxy proxies f i).2 q = 0)
      ∧ (∀ q, q ∉ proxies → (selectProxy proxies f i).2 q = f q)) := by
  constructor
  · intro hhealthy
    have hlen : 0 < (proxies.filter fun p => decide (f p < 3)).length :=
      List.length_pos.mpr hhealthy
    have hsel : selectProxy proxies f i
        = (some ((proxies.filter fun p => decide (f p < 3)).getD
            (i % (proxies.filter fun p => decide (f p < 3)).length) []), f) := by
      simp only [selectProxy, isEmpty_false_of_ne hne, Bool.false_eq_true, if_false]
      rw [if_pos hlen]
    rw [hsel]
    refine ⟨rfl, rfl, ?_⟩
    intro p hp
    have hpd : p = (proxies.filter fun q => decide (f q < 3)).getD
        (i % (proxies.filter fun q => decide (f q < 3)).length) [] :=
      (Option.some.inj hp).symm
    subst hpd
    have hmem := getD_mem_of_lt (Nat.mod_lt i hlen) ([] : JsStr)
    exact of_decide_eq_true (List.mem_filter.mp hmem).2
  · intro hhealthy
    have hlen : ¬(0 < (proxies.filter fun p => decide (f p < 3)).length) := by
      simp [hhealthy]
    have hsel : selectProxy proxies f i
        = (some (proxies.getD (i % proxies.length) []),
            fun q => if q ∈ proxies then 0 else f q) := by
      simp only [selectProxy, isEmpty_false_of_ne hne, Bool.false_eq_true, if_false]
      rw [if_neg hlen]
    rw [hsel]
    refine ⟨rfl, ?_, ?_⟩
    · intro q hq
      simp [hq]
    · intro q hq
      simp [hq]

theorem selectProxy_spec_witness :
    (selectProxy [js "p1", js "p2"] (fun q => if q = js "p1" then 3 else 0) 0).1
      = some (js "p2")
    ∧ (selectProxy [js "p1", js "p2"] (fun q => if q = js "p1" then 3 else 0) 0).2
        (js "p2") = 0 := by
  have h := (selectProxy_spec [js "p1", js "p2"]
    (fun q => if q = js "p1" then 3 else 0) 0 (by decide)).1 (by decide)
  exact ⟨h.1.trans (by decide), by rw [h.2.1]; decide⟩

/-- C1: in one scheduler-loop account iteration, when `processAccount` ends
in a proxy-classified error the failure counter of the selected (truthy)
proxy is incremented by exactly one and no other counter changes; when the
account returns normally, or the error is not proxy-classified, or no proxy
was selected, the table is exactly what selection produced; and relative to
the pre-iteration table, a counter changes only through that increment or
through the global reset selection performs when no proxy is healthy. -/
theorem schedulerStep_failure_accounting (proxies : List JsStr) (f : JsStr → Nat)
    (i : Nat) (accOutcome : Option JsError) :
    (∀ e p, accOutcome = some e → isProxyError (some e) = true →
      (selectProxy proxies f i).1 = some p → p ≠ [] →
      (schedulerStep proxies f i accOutcome).2 p = (selectProxy proxies f i).2 p + 1
      ∧ ∀ q, q ≠ p → (schedulerStep proxies f i accOutcome).2 q = (selectProxy proxies f i).2 q)
    ∧ ((accOutcome = none ∨ (∀ e, accOutcome = some e → isProxyError (some e) = false)
        ∨ (selectProxy proxies f i).1 = none)
      → (schedulerStep proxies f i accOutcome).2 = (selectProxy proxies f i).2)
    ∧ (∀ q, (schedulerStep proxies f i accOutcome).2 q ≠ f q →
        ((proxies.filter fun p => decide (f p < 3)) = [] ∧ q ∈ proxies
          ∧ (selectProxy proxies f i).2 q = 0)
        ∨ ((∃ e, accOutcome = some e ∧ isProxyError (some e) = true)
          ∧ (selectProxy proxies f i).1 = some q
          ∧ (schedulerStep proxies f i accOutcome).2 q
              = (selectProxy proxies f i).2 q + 1)) := by
  refine ⟨?_, ?_, ?_⟩
  · intro e p hout hproxy hsel hpne
    subst hout
    simp only [schedulerStep, hsel, hproxy, isEmpty_false_of_ne hpne, Bool.not_false,
      Bool.true_and, if_pos]
    constructor
    · simp
    · intro q hq
      simp [hq]
  · intro hcase
    rcases hcase with hout | hnp | hselnone
    · subst hout
      rfl
    · cases hout : accOutcome with
      | none => rfl
      | some e =>
        have hfalse := hnp e hout
        subst hout
        cases hsel : (selectProxy proxies f i).1 with
        | none => simp [schedulerStep, hsel]
        | some p => simp [schedulerStep, hsel, hfalse]
    · cases hout : accOutcome with
      | none => rfl
      | some e => simp [schedulerStep, hselnone]
  · intro q hq
    by_cases hstep : (schedulerStep proxies f i accOutcome).2 q = (selectProxy proxies f i).2 q
    · left
      have hsel2 : (selectProxy proxies f i).2 q ≠ f q := by
        rw [← hstep]
        exact hq
      by_cases hpe : proxies.isEmpty
      · exfalso
        apply hsel2
        simp [selectProxy, hpe]
      · by_cases hlen : 0 < (proxies.filter fun p => decide (f p < 3)).length
        · exfalso
          apply hsel2
          simp only [selectProxy, hpe, Bool.false_eq_true, if_false]
          rw [if_pos hlen]
        · have hreset : (selectProxy proxies f i).2 q
              = if q ∈ proxies then 0 else f q := by
            simp only [selectProxy, hpe, Bool.false_eq_true, if_false]
            rw [if_neg hlen]
          by_cases hqmem : q ∈ proxies
          · refine ⟨?_, hqmem, ?_⟩
            · rcases List.eq_nil_or_concat (proxies.filter fun p => decide (f p < 3)) with hnil | ⟨_, _, hcat⟩
              · exact hnil
              · exfalso
                apply hlen
                rw [hcat]
                simp
            · rw [hreset, if_pos hqmem]
          · exfalso
            apply hsel2
            rw [hreset, if_neg hqmem]
    · right
      cases hout : accOutcome with
      | none =>
        exfalso
        apply hstep
        subst hout
        rfl
      | some e =>
        subst hout
        cases hsel : (selectProxy proxies f i).1 with
        | none =>
          exfalso
          apply hstep
          simp [schedulerStep, hsel]
        | some p =>
          by_cases hcond : (!p.isEmpty && isProxyError (some e)) = true
          · by_cases hqp : q = p
            · subst hqp
              refine ⟨⟨e, rfl, (Bool.and_eq_true _ _).mp hcond |>.2⟩, rfl, ?_⟩
              simp [schedulerStep, hsel, hcond]
            · exfalso
              apply hstep
              simp [schedulerStep, hsel, hcond, hqp]
          · exfalso
            apply hstep
            simp [schedulerStep, hsel, hcond]

theorem schedulerStep_failure_accounting_witness :
    (schedulerStep [js "p1"] (fun _ => 0) 0
      (some ⟨some (js "ECONNRESET"), none, none⟩)).2 (js "p1") = 1 := by
  have h := (schedulerStep_failure_accounting [js "p1"] (fun _ => 0) 0
    (some ⟨some (js "ECONNRESET"), none, none⟩)).1
    ⟨some (js "ECONNRESET"), none, none⟩ (js "p1") rfl (by decide) (by decide) (by decide)
  rw [h.1]
  decide

/-! ## Account task runner (`processDailyChallenge` lines 337-383,
`processAccount` lines 385-502)

Tasks are embedded with the fields the runner reads; a field a remote task
object may lack is an `Option`.  The code only ever reads `id`, `title` and
`status` of a child task, so children are a separate, flat structure.
Completion calls (`axios.patch`) are an oracle from task id to outcome. -/

structure ChildTask where
  id : Nat
  title : Option JsStr
  status : JsStr
deriving DecidableEq

structure ApiTask where
  id : Nat
  title : Option JsStr
  status : JsStr
  group : Option JsStr
  ttype : Option JsStr
  iterable : Option Bool
  child : Option (List ChildTask)
deriving DecidableEq

/-- The daily-challenge predicate of `tasks.find(...)` (lines 341-344) and of
the `pendingTasks` filter (lines 428-429): a truthy title containing
"7-DAY Challenge", or `group === 'daily' && iterable === true &&
type === 'dummy'`. -/
def isDailyTask (t : ApiTask) : Bool :=
  (match t.title with
   | some ttl => containsSub ttl (js "7-DAY Challenge")
   | none => false) ||
  ((t.group == some (js "daily")) && (t.iterable == some true)
    && (t.ttype == some (js "dummy")))

/-- `processDailyChallenge` (lines 337-383), instrumented with the list of
completion calls it issues.  No daily task → `false`; found with status
`completed` or `started` → `true` with no call; otherwise one PATCH for its
id, whose failure is caught and reported as `false`. -/
def processDailyChallenge (tasks : List ApiTask) (patch : Nat → Except JsError Unit) :
    Bool × List Nat :=
  match tasks.find? fun t => isDailyTask t with
  | none => (false, [])
  | some dailyTask =>
    if dailyTask.status == js "completed" || dailyTask.status == js "started" then
      (true, [])
    else
      match patch dailyTask.id with
      | .ok _ => (true, [dailyTask.id])
      | .error _ => (false, [dailyTask.id])

/-- One child-task iteration of the inner loop (lines 445-464): a child with
status `new` or `failed` gets its own PATCH, counted as completed or failed
in its own try/catch; any other child is skipped.  The accumulator is
`(calls, completedTaskCount, failedTaskCount)`. -/
def sweepChild (patch : Nat → Except JsError Unit) (acc : List Nat × Nat × Nat)
    (c : ChildTask) : List Nat × Nat × Nat :=
  if c.status == js "new" || c.status == js "failed" then
    match patch c.id with
    | .ok _ => (acc.1 ++ [c.id], acc.2.1 + 1, acc.2.2)
    | .error _ => (acc.1 ++ [c.id], acc.2.1, acc.2.2 + 1)
  else acc

/-- One pending-task iteration of the sweep (lines 440-484):
`task.child && task.child.length > 0` walks the children, otherwise the task
itself is patched directly, each in its own try/catch. -/
def sweepTask (patch : Nat → Except JsError Unit) (acc : List Nat × Nat × Nat)
    (t : ApiTask) : List Nat × Nat × Nat :=
  match t.child with
  | some children =>
    if children.length > 0 then children.foldl (sweepChild patch) acc
    else
      match patch t.id with
      | .ok _ => (acc.1 ++ [t.id], acc.2.1 + 1, acc.2.2)
      | .error _ => (acc.1 ++ [t.id], acc.2.1, acc.2.2 + 1)
  | none =>
    match patch t.id with
    | .ok _ => (acc.1 ++ [t.id], acc.2.1 + 1, acc.2.2)
    | .error _ => (acc.1 ++ [t.id], acc.2.1, acc.2.2 + 1)

def sweepTasks (patch : Nat → Except JsError Unit) (tasks : List ApiTask) :
    List Nat × Nat × Nat :=
  tasks.foldl (sweepTask patch) ([], 0, 0)

structure Profile where
  email : Option JsStr
  nickname : Option JsStr
deriving DecidableEq

/-- What one run of `processAccount` did, as its caller and logs can see it. -/
structure AccountResult where
  profileOk : Bool
  tasksOk : Bool
  dailySuccess : Bool
  calls : List Nat
  completedTaskCount : Nat
  failedTaskCount : Nat
  caughtOuter : Bool
deriving DecidableEq

/-- JS `try { body } catch (e) { handler }` in the `Except` embedding. -/
def tryCatchE {ε α : Type} (body : Except ε α) (handler : ε → Except ε α) :
    Except ε α :=
  match body with
  | .ok a => .ok a
  | .error e => handler e

/-- The try-block body of `processAccount` (lines 389-491).  `profileRes` and
`tasksRes` are the resolved outcomes of the two retry-wrapped fetches; both
early `return`s on their failure (lines 399-402, 413-416) are normal
returns.  The daily challenge and every per-task/per-child completion are
guarded where the source guards them, so the body never itself throws. -/
def processAccountTry (profileRes : Except JsError Profile)
    (tasksRes : Except JsError (List ApiTask)) (patch : Nat → Except JsError Unit) :
    Except JsError AccountResult :=
  match profileRes with
  | .error _ => .ok ⟨false, false, false, [], 0, 0, false⟩
  | .ok _ =>
    match tasksRes with
    | .error _ => .ok ⟨true, false, false, [], 0, 0, false⟩
    | .ok tasks =>
      let dc := processDailyChallenge tasks patch
      let pendingTasks := tasks.filter fun t =>
        (t.status == js "new" || t.status == js "failed") && !isDailyTask t
      let sw := sweepTasks patch pendingTasks
      .ok ⟨true, true, dc.1, dc.2 ++ sw.1, sw.2.1, sw.2.2, false⟩

/-- `processAccount` (lines 385-502): the try body wrapped in the outer
catch-all (lines 493-501), which logs the classified error and swallows it,
returning normally. -/
def processAccountE (profileRes : Except JsError Profile)
    (tasksRes : Except JsError (List ApiTask)) (patch : Nat → Except JsError Unit) :
    Except JsError AccountResult :=
  tryCatchE (processAccountTry profileRes tasksRes patch)
    fun _ => .ok ⟨false, false, false, [], 0, 0, true⟩

/-- C8: a task is identified as the daily challenge exactly when its title
contains "7-DAY Challenge" (regardless of its group, type and iterable
fields) or when group = "daily", iterable = true and type = "dummy"; the
runner takes the first such task of the list; and when the identified task's
status is `completed` or `started` no completion call is issued for it. -/
theorem daily_challenge_detection :
    (∀ t : ApiTask, isDailyTask t = true ↔
      ((∃ ttl, t.title = some ttl ∧ containsSub ttl (js "7-DAY Challenge") = true)
        ∨ (t.group = some (js "daily") ∧ t.iterable = some true
            ∧ t.ttype = some (js "dummy"))))
    ∧ (∀ (tasks : List ApiTask) (patch : Nat → Except JsError Unit) (t : ApiTask),
        tasks.find? (fun t => isDailyTask t) = some t →
        (t.status = js "completed" ∨ t.status = js "started") →
        (processDailyChallenge tasks patch).2 = []) := by
  constructor
  · intro t
    obtain ⟨id, title, status, group, ttype, iterable, child⟩ := t
    cases title <;> cases group <;> cases ttype <;> cases iterable <;>
      simp [isDailyTask, and_assoc]
  · intro tasks patch t hfind hstat
    have hcond : (t.status == js "completed" || t.status == js "started") = true := by
      rcases hstat with h | h <;> simp [h]
    simp [processDailyChallenge, hfind, hcond]

theorem daily_challenge_detection_witness :
    isDailyTask ⟨5, some (js "Complete 7-DAY Challenge Day 3"), js "completed",
        some (js "social"), some (js "ref"), some false, none⟩ = true
    ∧ (processDailyChallenge
        [⟨5, some (js "Complete 7-DAY Challenge Day 3"), js "completed",
          some (js "social"), some (js "ref"), some false, none⟩]
        (fun _ => .ok ())).2 = [] :=
  ⟨(daily_challenge_detection.1 _).mpr
      (Or.inl ⟨js "Complete 7-DAY Challenge Day 3", rfl, by decide⟩),
    daily_challenge_detection.2 _ _
      ⟨5, some (js "Complete 7-DAY Challenge Day 3"), js "completed",
        some (js "social"), some (js "ref"), some false, none⟩
      (by decide) (Or.inl rfl)⟩

/-- The task list of the spec's end-to-end scenario (section 8): ids 1 (new,
empty child list), 2 (completed), 3 (new, children 31 new and 32 completed);
no daily-challenge task present. -/
def scenarioTasks : List ApiTask :=
  [⟨1, none, js "new", none, none, none, some []⟩,
   ⟨2, none, js "completed", none, none, none, none⟩,
   ⟨3, none, js "new", none, none, none,
     some [⟨31, none, js "new"⟩, ⟨32, none, js "completed"⟩]⟩]

/-- C9: on the scenario task list, with every completion call succeeding,
the run issues exactly the two completion calls for ids 1 and 31 and ends
with completedTaskCount = 2 and failedTaskCount = 0. -/
theorem end_to_end_two_calls :
    processAccountE (.ok ⟨none, none⟩) (.ok scenarioTasks) (fun _ => .ok ())
      = .ok ⟨true, true, false, [1, 31], 2, 0, false⟩ := rfl

/-- C10: `processAccount` never propagates an exception to its caller: for
every outcome of the profile fetch, the task-list fetch and each completion
call, the embedded run returns normally — every error is caught inside. -/
theorem processAccount_never_throws (profileRes : Except JsError Profile)
    (tasksRes : Except JsError (List ApiTask)) (patch : Nat → Except JsError Unit) :
    ∃ r, processAccountE profileRes tasksRes patch = .ok r := by
  cases h : processAccountTry profileRes tasksRes patch with
  | ok a => exact ⟨a, by simp [processAccountE, tryCatchE, h]⟩
  | error e =>
    exact ⟨⟨false, false, false, [], 0, 0, true⟩, by simp [processAccountE, tryCatchE, h]⟩
